import Mathlib

/-!
Shallow embedding of the MyTelegramFinanceTracker web application
(`src/app.py`) together with proofs about its behaviour.

The application is a CRUD layer over three tables (`users`,
`money_sources`, `expenses`).  We embed the database state as lists of
rows plus the auto-increment counters, and each HTTP handler as an
explicit state transformer returning its JSON-level result together
with the successor state.

Modelling conventions, chosen to follow `src/app.py` (the SQLite
branch, which is the default when no `DATABASE_URL` is set):

* Row ids and telegram ids are integers (`Int`); auto-increment id
  generation (`lastrowid` on an `AUTOINCREMENT` primary key) is
  modelled by the `next*Id` counters.
* Monetary amounts are exact rationals (`ℚ`); the PostgreSQL variant
  stores `NUMERIC(12,2)` exactly, and this also models the ideal
  decimal arithmetic of the REAL variant.
* A nullable SQL column is an `Option`; `SUM(...)` over zero rows is
  `NULL`, modelled with `Option` as well.
* A JSON body field obtained with `data.get(...)` is an `Option`;
  Python truthiness of such a field (`if not x`, `not all([...])`) is
  the `falsy*` helpers below (absent/`None`, `0`, and `""` are falsy).
* A query-string parameter (`request.args.get`) that is absent or the
  empty string is falsy; a present non-empty value is truthy, so such
  parameters are modelled as `Option Int` where `none` covers both the
  missing and the empty-string case.
* `SELECT ... fetchone()` is `List.find?`; `UPDATE ... WHERE c` maps
  over all rows satisfying `c`; `DELETE ... WHERE c` filters them out;
  `SELECT COUNT(*)` is the length of the filter.
* `ORDER BY k DESC` is a sort by the key `k`, descending, with SQL
  `NULL` ordered below every value (SQLite semantics); we use
  `List.insertionSort`, which is a stable sort like SQLite's.
* `GROUP BY ms.id` over the primary-key column is, for well-formed
  states (distinct ids), one group per stored row.
* `created_at` timestamps only matter through the calendar month an
  expense falls in, so an expense row carries an abstract `month` tag
  and the statistics handlers take the current month as a parameter.
-/

namespace FinanceTracker

/-- Monetary amounts: exact rationals (see the conventions above). -/
abbrev Amount := ℚ

/-- A row of the `users` table. -/
structure UserRow where
  id : Int
  telegram_id : Int
  username : Option String
deriving DecidableEq

/-- A row of the `money_sources` table.  `balance` is nullable: the
column has no NOT NULL constraint and `update_source` can store NULL. -/
structure SourceRow where
  id : Int
  user_id : Int
  name : String
  balance : Option Amount
  stype : String
deriving DecidableEq

/-- A row of the `expenses` table.  `month` abstracts the calendar
month of `created_at`. -/
structure ExpenseRow where
  id : Int
  user_id : Int
  source_id : Int
  amount : Amount
  category : String
  note : String
  month : Int
deriving DecidableEq

/-- The whole database state. -/
structure DB where
  users : List UserRow
  sources : List SourceRow
  expenses : List ExpenseRow
  nextUserId : Int
  nextSourceId : Int
  nextExpenseId : Int
deriving DecidableEq

/-- Result of a mutating endpoint: a 201 with the fresh id, a 200 with
a message, or an error status with its message. -/
inductive ApiResult where
  | created (id : Int) (msg : String)
  | okMsg (msg : String)
  | err (status : Nat) (msg : String)
deriving DecidableEq

/-- Python truthiness test (negated) for an optional integer field:
`None` and `0` are falsy. -/
def falsyI : Option Int → Bool
  | none => true
  | some n => n == 0

/-- Python truthiness test (negated) for an optional numeric field:
`None` and `0` are falsy. -/
def falsyQ : Option Amount → Bool
  | none => true
  | some q => q == 0

/-- Python truthiness test (negated) for an optional string field:
`None` and `""` are falsy. -/
def falsyS : Option String → Bool
  | none => true
  | some s => s == ""

/-- `get_or_create_user` (`src/app.py` lines 139-158): look the user up
by `telegram_id`; insert a fresh row when absent; return the internal
id. -/
def get_or_create_user (telegram_id : Int) (username : Option String)
    (db : DB) : Int × DB :=
  match db.users.find? (fun u => u.telegram_id == telegram_id) with
  | some u => (u.id, db)
  | none =>
      let uid := db.nextUserId
      (uid,
       { db with
         users := db.users ++ [⟨uid, telegram_id, username⟩],
         nextUserId := uid + 1 })

/-- C4: user resolution is idempotent — a second `get_or_create_user`
with the same external id returns the same internal id and changes no
state (in particular it inserts no new user row). -/
theorem get_or_create_user_idempotent (tid : Int) (un un' : Option String)
    (db : DB) :
    ((get_or_create_user tid un' (get_or_create_user tid un db).2).1
        = (get_or_create_user tid un db).1)
      ∧ (get_or_create_user tid un' (get_or_create_user tid un db).2).2
        = (get_or_create_user tid un db).2 := by
  cases h : db.users.find? (fun u => u.telegram_id == tid) with
  | some u =>
      simp [get_or_create_user, h]
  | none =>
      simp only [get_or_create_user, h]
      rw [List.find?_append, h]
      simp [List.find?]

/-- The JSON body of `POST /api/expenses`, each field as `data.get`
delivers it. -/
structure ExpenseReq where
  telegram_id : Option Int
  source_id : Option Int
  amount : Option Amount
  category : Option String
  note : Option String
deriving DecidableEq

/-- `add_expense` (`src/app.py` lines 319-369): reject when any of the
four required body fields is falsy; resolve the user; look the source
up by id and owner; 404 when absent; 400 when the balance is below the
amount; otherwise insert the expense row and debit every source row
with that id (the UPDATE filters on `id` only, not on `user_id`).  A
NULL stored balance makes `float(source['balance'])` raise, which the
framework surfaces as a 500 with nothing committed. -/
def add_expense (req : ExpenseReq) (month : Int) (db : DB) : ApiResult × DB :=
  if falsyI req.telegram_id || falsyI req.source_id
      || falsyQ req.amount || falsyS req.category then
    (.err 400 "Missing required fields", db)
  else
    let tid := req.telegram_id.getD 0
    let sid := req.source_id.getD 0
    let amt := req.amount.getD 0
    let cat := req.category.getD ""
    let note := req.note.getD ""
    let r := get_or_create_user tid none db
    match r.2.sources.find? (fun s => s.id == sid && s.user_id == r.1) with
    | none => (.err 404 "Source not found", r.2)
    | some src =>
        match src.balance with
        | none => (.err 500 "Internal Server Error", r.2)
        | some b =>
            if b < amt then (.err 400 "Insufficient balance", r.2)
            else
              (.created r.2.nextExpenseId "Expense added successfully",
               { r.2 with
                 expenses := r.2.expenses
                   ++ [⟨r.2.nextExpenseId, r.1, sid, amt, cat, note, month⟩],
                 sources := r.2.sources.map (fun s =>
                   if s.id == sid then
                     { s with balance := s.balance.map (fun q => q - amt) }
                   else s),
                 nextExpenseId := r.2.nextExpenseId + 1 })

/-- `delete_expense` (`src/app.py` lines 371-404): require the
query-string `telegram_id`; resolve the user; look the expense up by
id and owner; 404 when absent; otherwise credit the expense's amount
back to every source row with its `source_id` (again no `user_id`
filter on the UPDATE) and delete the expense row. -/
def delete_expense (expense_id : Int) (telegram_id : Option Int)
    (db : DB) : ApiResult × DB :=
  match telegram_id with
  | none => (.err 400 "telegram_id is required", db)
  | some tid =>
      let r := get_or_create_user tid none db
      match r.2.expenses.find? (fun e => e.id == expense_id && e.user_id == r.1) with
      | none => (.err 404 "Expense not found", r.2)
      | some exp =>
          (.okMsg "Expense deleted and balance restored",
           { r.2 with
             sources := r.2.sources.map (fun s =>
               if s.id == exp.source_id then
                 { s with balance := s.balance.map (fun q => q + exp.amount) }
               else s),
             expenses := r.2.expenses.filter (fun e =>
               !(e.id == expense_id && e.user_id == r.1)) })

/-- `update_source` (`src/app.py` lines 230-250): require a truthy body
`telegram_id` (the only validation); resolve the user; overwrite the
balance of every source row matching the path id and the owner with
`data.get('balance')` as it came — possibly NULL — and report success
unconditionally. -/
def update_source (source_id : Int) (telegram_id : Option Int)
    (balance : Option Amount) (db : DB) : ApiResult × DB :=
  if falsyI telegram_id then
    (.err 400 "telegram_id is required", db)
  else
    let r := get_or_create_user (telegram_id.getD 0) none db
    (.okMsg "Source updated successfully",
     { r.2 with
       sources := r.2.sources.map (fun s =>
         if s.id == source_id && s.user_id == r.1 then
           { s with balance := balance }
         else s) })

/-- `delete_source` (`src/app.py` lines 252-280): require the
query-string `telegram_id`; resolve the user; count the expenses
referencing the source for this user; 400 naming the count when
positive; otherwise delete the matching source rows and report
success (also when nothing matched). -/
def delete_source (source_id : Int) (telegram_id : Option Int)
    (db : DB) : ApiResult × DB :=
  match telegram_id with
  | none => (.err 400 "telegram_id is required", db)
  | some tid =>
      let r := get_or_create_user tid none db
      let cnt := (r.2.expenses.filter (fun e =>
        e.source_id == source_id && e.user_id == r.1)).length
      if 0 < cnt then
        (.err 400 ("Cannot delete source with " ++ toString cnt
          ++ " expenses. Delete expenses first."), r.2)
      else
        (.okMsg "Source deleted successfully",
         { r.2 with
           sources := r.2.sources.filter (fun s =>
             !(s.id == source_id && s.user_id == r.1)) })

/-- One element of the `categories` list of the monthly statistics. -/
structure CatRow where
  category : String
  total : Amount
deriving DecidableEq

/-- Result of `GET /api/statistics/monthly`. -/
inductive MonthlyResult where
  | err (status : Nat) (msg : String)
  | ok (categories : List CatRow) (total : Amount)
deriving DecidableEq

/-- Descending order on category totals (`ORDER BY total DESC`). -/
def catDesc (a b : CatRow) : Prop := b.total ≤ a.total

instance : DecidableRel catDesc := fun a b => by
  unfold catDesc
  infer_instance

/-- `get_monthly_statistics` (`src/app.py` lines 407-466): require the
query-string `telegram_id`; resolve the user; sum this user's expenses
of the current month grouped by category, ordered by total descending;
the grand total is the SUM over those rows, NULL coalesced to 0 by
`or 0`. -/
def get_monthly_statistics (telegram_id : Option Int) (nowMonth : Int)
    (db : DB) : MonthlyResult × DB :=
  match telegram_id with
  | none => (.err 400 "telegram_id is required", db)
  | some tid =>
      let r := get_or_create_user tid none db
      let rows := r.2.expenses.filter (fun e =>
        e.user_id == r.1 && e.month == nowMonth)
      let cats := (rows.map (fun e => e.category)).dedup
      let catRows := cats.map (fun c =>
        CatRow.mk c (((rows.filter (fun e => e.category == c)).map
          (fun e => e.amount)).sum))
      let total := (if rows.isEmpty then none
        else some ((rows.map (fun e => e.amount)).sum)).getD 0
      (.ok (catRows.insertionSort catDesc) total, r.2)

/-- One element of the `sources` list of the per-source statistics:
the source's name, its stored (nullable) balance, and the SUM of the
joined expense amounts — NULL when no expense joined. -/
structure SourceStatRow where
  name : String
  balance : Option Amount
  spent : Option Amount
deriving DecidableEq

/-- Result of `GET /api/statistics/sources`. -/
inductive SourceStatsResult where
  | err (status : Nat) (msg : String)
  | ok (sources : List SourceStatRow)
deriving DecidableEq

/-- SQLite comparison of nullable sums: NULL orders below every
value. -/
def nullLe : Option Amount → Option Amount → Prop
  | none, _ => True
  | some _, none => False
  | some a, some b => a ≤ b

instance : DecidableRel nullLe := fun a b => by
  cases a <;> cases b <;> unfold nullLe <;> infer_instance

/-- Descending order on spent sums (`ORDER BY spent DESC`, SQLite NULL
ordering: NULL rows come last). -/
def spentDesc (a b : SourceStatRow) : Prop := nullLe b.spent a.spent

instance : DecidableRel spentDesc := fun a b => by
  unfold spentDesc
  infer_instance

/-- `get_source_statistics` (`src/app.py` lines 506-539): require the
query-string `telegram_id`; resolve the user; for each source of this
user (`GROUP BY ms.id`, one group per row given distinct primary-key
ids) LEFT JOIN the expenses on `source_id` alone and sum their
amounts (NULL when none joined), ordered by spent descending. -/
def get_source_statistics (telegram_id : Option Int)
    (db : DB) : SourceStatsResult × DB :=
  match telegram_id with
  | none => (.err 400 "telegram_id is required", db)
  | some tid =>
      let r := get_or_create_user tid none db
      let rows := (r.2.sources.filter (fun s => s.user_id == r.1)).map
        (fun s =>
          let es := r.2.expenses.filter (fun e => e.source_id == s.id)
          SourceStatRow.mk s.name s.balance
            (if es.isEmpty then none
             else some ((es.map (fun e => e.amount)).sum)))
      (.ok (rows.insertionSort spentDesc), r.2)

/-- Searching a mapped list with a predicate the map does not disturb
is searching the original list and mapping the hit. -/
theorem find?_map_invariant {α : Type} (f : α → α) (p : α → Bool)
    (hp : ∀ a, p (f a) = p a) (l : List α) :
    (l.map f).find? p = (l.find? p).map f := by
  have hcomp : (p ∘ f) = p := funext hp
  rw [List.find?_map, hcomp]

/-- When the user row is already present, `get_or_create_user` returns
its id and leaves the state untouched. -/
theorem get_or_create_user_found {tid : Int} {un : Option String}
    {db : DB} {u : UserRow}
    (h : db.users.find? (fun x => x.telegram_id == tid) = some u) :
    get_or_create_user tid un db = (u.id, db) := by
  simp [get_or_create_user, h]

/-- Computation of `delete_expense` when the user resolves and the
expense is found. -/
theorem delete_expense_found {eid tid : Int} {db : DB} {u : UserRow}
    {exp : ExpenseRow}
    (h1 : db.users.find? (fun x => x.telegram_id == tid) = some u)
    (h2 : db.expenses.find? (fun e => e.id == eid && e.user_id == u.id)
      = some exp) :
    delete_expense eid (some tid) db
      = (.okMsg "Expense deleted and balance restored",
         { db with
           sources := db.sources.map (fun x =>
             if x.id == exp.source_id then
               { x with balance := x.balance.map (fun q => q + exp.amount) }
             else x),
           expenses := db.expenses.filter (fun e =>
             !(e.id == eid && e.user_id == u.id)) }) := by
  simp only [delete_expense, get_or_create_user_found h1, h2]

/-- C1: expense create/delete round-trip.  For a resolved user and a
source of theirs holding balance `B`, creating an expense of amount
`A` with `0 < A ≤ B` succeeds and leaves the source's balance at
`B - A`, and deleting that same expense brings the whole source table
— in particular that balance — back to exactly its original state. -/
theorem expense_create_delete_roundtrip
    (db : DB) (tid sid : Int) (A B : Amount) (cat : String)
    (note : Option String) (m : Int) (u : UserRow) (s : SourceRow)
    (hwf : ∀ e ∈ db.expenses, e.id < db.nextExpenseId)
    (hu : db.users.find? (fun x => x.telegram_id == tid) = some u)
    (htid : tid ≠ 0) (hsid : sid ≠ 0) (hcat : cat ≠ "")
    (hs : db.sources.find? (fun x => x.id == sid && x.user_id == u.id) = some s)
    (hbal : s.balance = some B)
    (hApos : 0 < A) (hAle : A ≤ B) :
    ∃ db1 db2,
      add_expense ⟨some tid, some sid, some A, some cat, note⟩ m db
        = (.created db.nextExpenseId "Expense added successfully", db1)
      ∧ db1.sources.find? (fun x => x.id == sid && x.user_id == u.id)
          = some { s with balance := some (B - A) }
      ∧ delete_expense db.nextExpenseId (some tid) db1
          = (.okMsg "Expense deleted and balance restored", db2)
      ∧ db2.sources = db.sources := by
  have hA0 : A ≠ 0 := ne_of_gt hApos
  have hg : get_or_create_user tid none db = (u.id, db) :=
    get_or_create_user_found hu
  have hps : (s.id == sid && s.user_id == u.id) = true := by
    simpa using List.find?_some hs
  have hpinv : ∀ x : SourceRow,
      ((if x.id == sid then
          { x with balance := x.balance.map (fun q => q - A) }
        else x).id == sid
        && (if x.id == sid then
          { x with balance := x.balance.map (fun q => q - A) }
        else x).user_id == u.id)
      = (x.id == sid && x.user_id == u.id) := by
    intro x
    by_cases hx : x.id == sid <;> simp [hx]
  have hadd : add_expense ⟨some tid, some sid, some A, some cat, note⟩ m db
      = (.created db.nextExpenseId "Expense added successfully",
         { db with
           expenses := db.expenses
             ++ [⟨db.nextExpenseId, u.id, sid, A, cat, note.getD "", m⟩],
           sources := db.sources.map (fun x =>
             if x.id == sid then
               { x with balance := x.balance.map (fun q => q - A) }
             else x),
           nextExpenseId := db.nextExpenseId + 1 }) := by
    unfold add_expense
    rw [if_neg (by simp [falsyI, falsyQ, falsyS, htid, hsid, hA0, hcat])]
    simp only [Option.getD_some, hg, hs, hbal]
    rw [if_neg (not_lt.mpr hAle)]
  have hnone : db.expenses.find?
      (fun e => e.id == db.nextExpenseId && e.user_id == u.id) = none := by
    rw [List.find?_eq_none]
    intro e he hpe
    obtain ⟨h1, h2⟩ : e.id = db.nextExpenseId ∧ e.user_id = u.id := by
      simpa using hpe
    exact absurd h1 (ne_of_lt (hwf e he))
  have hq : (db.expenses
      ++ [(⟨db.nextExpenseId, u.id, sid, A, cat, note.getD "", m⟩ :
        ExpenseRow)]).find?
      (fun e => e.id == db.nextExpenseId && e.user_id == u.id)
      = some ⟨db.nextExpenseId, u.id, sid, A, cat, note.getD "", m⟩ := by
    rw [List.find?_append, hnone]
    simp [List.find?]
  refine ⟨_, _, hadd, ?_, delete_expense_found hu hq, ?_⟩
  · rw [find?_map_invariant _ _ hpinv, hs]
    obtain ⟨h1, h2⟩ : s.id = sid ∧ s.user_id = u.id := by
      simpa using hps
    simp [h1, hbal]
  · show (db.sources.map (fun x =>
        if x.id == sid then
          { x with balance := x.balance.map (fun q => q - A) }
        else x)).map (fun x =>
        if x.id == sid then
          { x with balance := x.balance.map (fun q => q + A) }
        else x) = db.sources
    rw [List.map_map]
    apply List.map_id''
    intro x
    obtain ⟨xid, xuid, xname, xbal, xst⟩ := x
    simp only [Function.comp_apply]
    by_cases hx : (xid == sid) = true
    · simp only [hx, if_true]
      cases xbal with
      | none => simp
      | some b => simp [sub_add_cancel]
    · simp [hx]

/-- A small concrete state used to witness the theorems: one user with
telegram id 7, one source `Cash` with balance 100, no expenses. -/
def exDB : DB :=
  { users := [⟨1, 7, none⟩],
    sources := [⟨1, 1, "Cash", some 100, "cash"⟩],
    expenses := [],
    nextUserId := 2, nextSourceId := 2, nextExpenseId := 1 }

/-- C1 witness: the round-trip at a concrete state — balance 100,
expense of 40, balance 60, delete, balance restored. -/
theorem expense_create_delete_roundtrip_witness :
    ∃ db1 db2,
      add_expense ⟨some 7, some 1, some 40, some "Food", none⟩ 5 exDB
        = (.created 1 "Expense added successfully", db1)
      ∧ db1.sources.find? (fun x => x.id == 1 && x.user_id == 1)
          = some ⟨1, 1, "Cash", some 60, "cash"⟩
      ∧ delete_expense 1 (some 7) db1
          = (.okMsg "Expense deleted and balance restored", db2)
      ∧ db2.sources = exDB.sources := by
  have h := expense_create_delete_roundtrip exDB 7 1 40 100 "Food" none 5
    ⟨1, 7, none⟩ ⟨1, 1, "Cash", some 100, "cash"⟩
    (by simp [exDB]) rfl (by decide) (by decide) (by decide) rfl rfl
    (by norm_num) (by norm_num)
  simpa [exDB, show (100 : ℚ) - 40 = 60 by norm_num] using h

/-- Computation of `add_expense` in the insufficient-balance branch:
with all four required fields truthy, the user resolved, and the
source's balance strictly below the amount, the handler returns the
insufficient-balance 400 and the state is unchanged. -/
theorem add_expense_insufficient_balance
    (db : DB) (tid sid : Int) (A B : Amount) (cat : String)
    (note : Option String) (m : Int) (u : UserRow) (s : SourceRow)
    (hu : db.users.find? (fun x => x.telegram_id == tid) = some u)
    (htid : tid ≠ 0) (hsid : sid ≠ 0) (hA0 : A ≠ 0) (hcat : cat ≠ "")
    (hs : db.sources.find? (fun x => x.id == sid && x.user_id == u.id) = some s)
    (hbal : s.balance = some B) (hlt : B < A) :
    add_expense ⟨some tid, some sid, some A, some cat, note⟩ m db
      = (.err 400 "Insufficient balance", db) := by
  have hg : get_or_create_user tid none db = (u.id, db) :=
    get_or_create_user_found hu
  unfold add_expense
  rw [if_neg (by simp [falsyI, falsyQ, falsyS, htid, hsid, hA0, hcat])]
  simp only [Option.getD_some, hg, hs, hbal]
  rw [if_pos hlt]

/-- C2 counterexample: the source referenced by the request exists for
the resolved user and holds balance -1, strictly below the requested
amount 0, yet the handler answers with the missing-fields error (the
falsy amount fails the presence check first), not with the
insufficient-balance error the claim names. -/
theorem add_expense_insufficient_balance_counterexample :
    add_expense ⟨some 7, some 1, some 0, some "Food", none⟩ 5
        { users := [⟨1, 7, none⟩],
          sources := [⟨1, 1, "Cash", some (-1), "cash"⟩],
          expenses := [],
          nextUserId := 2, nextSourceId := 2, nextExpenseId := 1 }
      = (.err 400 "Missing required fields",
         { users := [⟨1, 7, none⟩],
           sources := [⟨1, 1, "Cash", some (-1), "cash"⟩],
           expenses := [],
           nextUserId := 2, nextSourceId := 2, nextExpenseId := 1 })
    ∧ ApiResult.err 400 "Missing required fields"
        ≠ ApiResult.err 400 "Insufficient balance" := by
  exact ⟨rfl, by decide⟩

/-- C2 witness: requesting 200 against balance 100 fails with the
insufficient-balance error and the state is untouched. -/
theorem add_expense_insufficient_balance_witness :
    add_expense ⟨some 7, some 1, some 200, some "Food", none⟩ 5 exDB
      = (.err 400 "Insufficient balance", exDB) :=
  add_expense_insufficient_balance exDB 7 1 200 100 "Food" none 5
    ⟨1, 7, none⟩ ⟨1, 1, "Cash", some 100, "cash"⟩
    rfl (by decide) (by decide) (by norm_num) (by decide) rfl rfl
    (by norm_num)

/-- C8: any falsy required field — absent field, zero user id, zero
source id, zero amount, or empty category — makes `add_expense` answer
the missing-fields 400 and leave the state unchanged; in particular a
zero-amount expense can never be created. -/
theorem add_expense_rejects_falsy_fields
    (req : ExpenseReq) (m : Int) (db : DB)
    (h : (falsyI req.telegram_id || falsyI req.source_id
      || falsyQ req.amount || falsyS req.category) = true) :
    add_expense req m db = (.err 400 "Missing required fields", db) := by
  unfold add_expense
  rw [if_pos h]

/-- C8 witness: an otherwise valid request with amount 0 is rejected
as missing fields. -/
theorem add_expense_rejects_falsy_fields_witness :
    (falsyI (some (7 : Int)) || falsyI (some (1 : Int))
      || falsyQ (some (0 : Amount)) || falsyS (some "Food")) = true
    ∧ add_expense ⟨some 7, some 1, some 0, some "Food", none⟩ 5 exDB
        = (.err 400 "Missing required fields", exDB) :=
  ⟨by decide, add_expense_rejects_falsy_fields _ _ _ (by decide)⟩

/-- C3: whenever `add_expense` succeeds with a positive amount, the
referenced source — looked up for the resolved user in the successor
state — holds a non-negative balance: the handler only ever debits
after checking the balance covers the amount. -/
theorem add_expense_no_overdraft
    (db : DB) (req : ExpenseReq) (m eid : Int) (db' : DB) (A : Amount)
    (hamt : req.amount = some A) (_hApos : 0 < A)
    (hsucc : add_expense req m db
      = (.created eid "Expense added successfully", db')) :
    ∃ tid sid, req.telegram_id = some tid ∧ req.source_id = some sid ∧
      ∃ row : SourceRow,
        db'.sources.find? (fun x =>
          x.id == sid && x.user_id == (get_or_create_user tid none db).1)
          = some row
        ∧ ∃ b, row.balance = some b ∧ 0 ≤ b := by
  unfold add_expense at hsucc
  by_cases hc : (falsyI req.telegram_id || falsyI req.source_id
      || falsyQ req.amount || falsyS req.category) = true
  · rw [if_pos hc] at hsucc
    simp at hsucc
  · rw [if_neg hc] at hsucc
    rcases hT : req.telegram_id with _ | tid
    · rw [hT] at hc
      simp [falsyI] at hc
    rcases hX : req.source_id with _ | sid
    · rw [hX] at hc
      simp [falsyI] at hc
    refine ⟨tid, sid, rfl, rfl, ?_⟩
    simp only [hT, hX, hamt, Option.getD_some] at hsucc
    rcases hF : ((get_or_create_user tid none db).2).sources.find?
        (fun s => s.id == sid
          && s.user_id == (get_or_create_user tid none db).1) with _ | src
    · simp only [hF] at hsucc
      simp at hsucc
    rcases hB : src.balance with _ | b
    · simp only [hF, hB] at hsucc
      simp at hsucc
    by_cases hba : b < A
    · simp only [hF, hB, if_pos hba] at hsucc
      simp at hsucc
    · simp only [hF, hB, if_neg hba] at hsucc
      have hdb : db' = { (get_or_create_user tid none db).2 with
          expenses := ((get_or_create_user tid none db).2).expenses
            ++ [⟨((get_or_create_user tid none db).2).nextExpenseId,
                (get_or_create_user tid none db).1, sid, A,
                req.category.getD "", req.note.getD "", m⟩],
          sources := ((get_or_create_user tid none db).2).sources.map (fun x =>
            if x.id == sid then
              { x with balance := x.balance.map (fun q => q - A) }
            else x),
          nextExpenseId :=
            ((get_or_create_user tid none db).2).nextExpenseId + 1 } := by
        have := congrArg Prod.snd hsucc
        simpa using this.symm
      have hpinv : ∀ x : SourceRow,
          ((if x.id == sid then
              { x with balance := x.balance.map (fun q => q - A) }
            else x).id == sid
            && (if x.id == sid then
              { x with balance := x.balance.map (fun q => q - A) }
            else x).user_id == (get_or_create_user tid none db).1)
          = (x.id == sid && x.user_id == (get_or_create_user tid none db).1) := by
        intro x
        by_cases hx : (x.id == sid) = true <;> simp [hx]
      obtain ⟨hs1, hs2⟩ : src.id = sid
          ∧ src.user_id = (get_or_create_user tid none db).1 := by
        simpa using List.find?_some hF
      rw [hdb]
      refine ⟨{ src with balance := some (b - A) }, ?_,
        b - A, rfl, sub_nonneg.mpr (not_lt.mp hba)⟩
      rw [find?_map_invariant _ _ hpinv, hF]
      simp [hs1, hB]

/-- C3 witness: the successful creation of a 40-expense against
balance 100 leaves the referenced source at the non-negative balance
60. -/
theorem add_expense_no_overdraft_witness :
    ∃ tid sid, (some (7 : Int) = some tid) ∧ (some (1 : Int) = some sid) ∧
      ∃ row : SourceRow,
        ({ users := [⟨1, 7, none⟩],
           sources := [⟨1, 1, "Cash", some ((100 : ℚ) - 40), "cash"⟩],
           expenses := [⟨1, 1, 1, 40, "Food", "", 5⟩],
           nextUserId := 2, nextSourceId := 2,
           nextExpenseId := 2 } : DB).sources.find?
          (fun x => x.id == sid
            && x.user_id == (get_or_create_user tid none exDB).1) = some row
        ∧ ∃ b, row.balance = some b ∧ 0 ≤ b := by
  exact add_expense_no_overdraft exDB
    ⟨some 7, some 1, some 40, some "Food", none⟩ 5 1 _ 40
    rfl (by norm_num) (by rfl)

/-- C5: source deletion guard.  With the user resolved, if any expense
of that user references the source the handler answers a 400 whose
message carries the exact expense count and the state is unchanged;
with zero such expenses it answers success and the new source table is
the old one with every row of that id and owner removed and every
other row kept. -/
theorem delete_source_guard
    (db : DB) (tid sid : Int) (u : UserRow)
    (hu : db.users.find? (fun x => x.telegram_id == tid) = some u) :
    (0 < (db.expenses.filter (fun e =>
        e.source_id == sid && e.user_id == u.id)).length →
      delete_source sid (some tid) db
        = (.err 400 ("Cannot delete source with "
            ++ toString (db.expenses.filter (fun e =>
              e.source_id == sid && e.user_id == u.id)).length
            ++ " expenses. Delete expenses first."), db))
    ∧ ((db.expenses.filter (fun e =>
        e.source_id == sid && e.user_id == u.id)).length = 0 →
      delete_source sid (some tid) db
        = (.okMsg "Source deleted successfully",
           { db with sources := db.sources.filter (fun x =>
               !(x.id == sid && x.user_id == u.id)) })
      ∧ (∀ x ∈ db.sources.filter (fun x =>
            !(x.id == sid && x.user_id == u.id)),
          ¬(x.id = sid ∧ x.user_id = u.id))
      ∧ ∀ x ∈ db.sources, ¬(x.id = sid ∧ x.user_id = u.id) →
          x ∈ db.sources.filter (fun x =>
            !(x.id == sid && x.user_id == u.id))) := by
  have hg : get_or_create_user tid none db = (u.id, db) :=
    get_or_create_user_found hu
  constructor
  · intro hpos
    unfold delete_source
    simp only [hg]
    rw [if_pos hpos]
  · intro hz
    refine ⟨?_, ?_, ?_⟩
    · unfold delete_source
      simp only [hg, hz]
      rw [if_neg (lt_irrefl 0)]
    · intro x hx
      rw [List.mem_filter] at hx
      intro hxx
      have : (x.id == sid && x.user_id == u.id) = true := by
        simp [hxx.1, hxx.2]
      simp [this] at hx
    · intro x hx hnot
      rw [List.mem_filter]
      refine ⟨hx, ?_⟩
      by_cases h1 : x.id = sid
      · by_cases h2 : x.user_id = u.id
        · exact absurd ⟨h1, h2⟩ hnot
        · simp [h1, h2]
      · simp [h1]

/-- C5 witness: with one expense against the source, deletion fails
naming the count 1; with none it succeeds. -/
theorem delete_source_guard_witness :
    (0 < (exDB.expenses.filter (fun e =>
        e.source_id == 1 && e.user_id == 1)).length →
      delete_source 1 (some 7) exDB
        = (.err 400 ("Cannot delete source with "
            ++ toString (exDB.expenses.filter (fun e =>
              e.source_id == 1 && e.user_id == 1)).length
            ++ " expenses. Delete expenses first."), exDB))
    ∧ ((exDB.expenses.filter (fun e =>
        e.source_id == 1 && e.user_id == 1)).length = 0 →
      delete_source 1 (some 7) exDB
        = (.okMsg "Source deleted successfully",
           { exDB with sources := exDB.sources.filter (fun x =>
               !(x.id == 1 && x.user_id == 1)) })
      ∧ (∀ x ∈ exDB.sources.filter (fun x =>
            !(x.id == 1 && x.user_id == 1)),
          ¬(x.id = 1 ∧ x.user_id = 1))
      ∧ ∀ x ∈ exDB.sources, ¬(x.id = 1 ∧ x.user_id = 1) →
          x ∈ exDB.sources.filter (fun x =>
            !(x.id == 1 && x.user_id == 1))) :=
  delete_source_guard exDB 7 1 ⟨1, 7, none⟩ rfl

/-- C6: monthly statistics for a user with no expense row in the
current month: the category list is empty and the total is 0. -/
theorem get_monthly_statistics_empty
    (db : DB) (tid now : Int) (u : UserRow)
    (hu : db.users.find? (fun x => x.telegram_id == tid) = some u)
    (hemp : db.expenses.filter (fun e =>
      e.user_id == u.id && e.month == now) = []) :
    get_monthly_statistics (some tid) now db = (.ok [] 0, db) := by
  have hg : get_or_create_user tid none db = (u.id, db) :=
    get_or_create_user_found hu
  unfold get_monthly_statistics
  simp only [hg, hemp]
  simp [List.insertionSort]

/-- C6 witness: the empty-month statistics at the concrete state. -/
theorem get_monthly_statistics_empty_witness :
    get_monthly_statistics (some 7) 3 exDB = (.ok [] 0, exDB) :=
  get_monthly_statistics_empty exDB 7 3 ⟨1, 7, none⟩ rfl rfl

instance : IsTotal SourceStatRow spentDesc := by
  constructor
  intro a b
  unfold spentDesc
  rcases ha : a.spent with _ | x <;> rcases hb : b.spent with _ | y
  · exact Or.inl trivial
  · exact Or.inr trivial
  · exact Or.inl trivial
  · exact le_total y x

instance : IsTrans SourceStatRow spentDesc := by
  constructor
  intro a b c hab hbc
  unfold spentDesc at *
  rcases hc : c.spent with _ | z
  · exact trivial
  · rcases hb : b.spent with _ | y
    · simp [nullLe, hb, hc] at hbc
    · rcases ha : a.spent with _ | x
      · simp [nullLe, ha, hb] at hab
      · have h1 : y ≤ x := by simpa [nullLe, ha, hb] using hab
        have h2 : z ≤ y := by simpa [nullLe, hb, hc] using hbc
        simpa [nullLe, ha, hc] using le_trans h2 h1

/-- C7: per-source statistics.  With the user resolved, the reply is a
permutation of one row per source of that user — carrying the source's
name, its stored balance, and the summed joined expense amounts, NULL
when no expense references the source — and the reply is sorted by
spend descending (NULL last, as SQLite orders NULL below every
value). -/
theorem get_source_statistics_complete
    (db : DB) (tid : Int) (u : UserRow)
    (hu : db.users.find? (fun x => x.telegram_id == tid) = some u) :
    ∃ rows, get_source_statistics (some tid) db = (.ok rows, db)
      ∧ rows.Perm ((db.sources.filter (fun s => s.user_id == u.id)).map
          (fun s => SourceStatRow.mk s.name s.balance
            (if (db.expenses.filter (fun e => e.source_id == s.id)).isEmpty
             then none
             else some (((db.expenses.filter
               (fun e => e.source_id == s.id)).map (fun e => e.amount)).sum))))
      ∧ rows.Sorted spentDesc := by
  have hg : get_or_create_user tid none db = (u.id, db) :=
    get_or_create_user_found hu
  have key : get_source_statistics (some tid) db
      = (.ok (((db.sources.filter (fun s => s.user_id == u.id)).map
          (fun s => SourceStatRow.mk s.name s.balance
            (if (db.expenses.filter (fun e => e.source_id == s.id)).isEmpty
             then none
             else some (((db.expenses.filter
               (fun e => e.source_id == s.id)).map
                 (fun e => e.amount)).sum)))).insertionSort spentDesc),
         db) := by
    unfold get_source_statistics
    simp only [hg]
  exact ⟨_, key, List.perm_insertionSort _ _, List.sorted_insertionSort _ _⟩

/-- C7 witness: the completeness statement at the concrete state. -/
theorem get_source_statistics_complete_witness :
    ∃ rows, get_source_statistics (some 7) exDB = (.ok rows, exDB)
      ∧ rows.Perm ((exDB.sources.filter (fun s => s.user_id == 1)).map
          (fun s => SourceStatRow.mk s.name s.balance
            (if (exDB.expenses.filter (fun e => e.source_id == s.id)).isEmpty
             then none
             else some (((exDB.expenses.filter
               (fun e => e.source_id == s.id)).map (fun e => e.amount)).sum))))
      ∧ rows.Sorted spentDesc :=
  get_source_statistics_complete exDB 7 ⟨1, 7, none⟩ rfl

/-- C9: `update_source` validates nothing but the user identifier —
a falsy `telegram_id` is the only way to get the validation error —
and a request carrying no balance value succeeds and overwrites the
stored balance of the addressed source with NULL (shown for every
balance payload `b`, the NULL case included). -/
theorem update_source_balance_unvalidated
    (db : DB) (sid tid : Int) (u : UserRow) (s : SourceRow)
    (hu : db.users.find? (fun x => x.telegram_id == tid) = some u)
    (htid : tid ≠ 0)
    (hs : db.sources.find? (fun x => x.id == sid && x.user_id == u.id)
      = some s) :
    (∀ (t : Option Int) (b : Option Amount), falsyI t = true →
      update_source sid t b db = (.err 400 "telegram_id is required", db))
    ∧ ∀ b : Option Amount, ∃ db',
        update_source sid (some tid) b db
          = (.okMsg "Source updated successfully", db')
        ∧ db'.users = db.users ∧ db'.expenses = db.expenses
        ∧ db'.sources.find? (fun x => x.id == sid && x.user_id == u.id)
            = some { s with balance := b } := by
  have hg : get_or_create_user tid none db = (u.id, db) :=
    get_or_create_user_found hu
  constructor
  · intro t b ht
    unfold update_source
    rw [if_pos ht]
  · intro b
    obtain ⟨hs1, hs2⟩ : s.id = sid ∧ s.user_id = u.id := by
      simpa using List.find?_some hs
    have hpinv : ∀ x : SourceRow,
        ((if x.id == sid && x.user_id == u.id then
            { x with balance := b }
          else x).id == sid
          && (if x.id == sid && x.user_id == u.id then
            { x with balance := b }
          else x).user_id == u.id)
        = (x.id == sid && x.user_id == u.id) := by
      intro x
      by_cases hx : (x.id == sid && x.user_id == u.id) = true <;> simp [hx]
    refine ⟨{ db with sources := db.sources.map (fun x =>
        if x.id == sid && x.user_id == u.id then
          { x with balance := b }
        else x) }, ?_, rfl, rfl, ?_⟩
    · unfold update_source
      rw [if_neg (by simp [falsyI, htid])]
      simp only [Option.getD_some, hg]
    · rw [find?_map_invariant _ _ hpinv, hs]
      simp [hs1, hs2]

/-- C9 witness: updating the concrete source with no balance payload
succeeds and stores NULL. -/
theorem update_source_balance_unvalidated_witness :
    (∀ (t : Option Int) (b : Option Amount), falsyI t = true →
      update_source 1 t b exDB = (.err 400 "telegram_id is required", exDB))
    ∧ ∀ b : Option Amount, ∃ db',
        update_source 1 (some 7) b exDB
          = (.okMsg "Source updated successfully", db')
        ∧ db'.users = exDB.users ∧ db'.expenses = exDB.expenses
        ∧ db'.sources.find? (fun x => x.id == 1 && x.user_id == 1)
            = some ⟨1, 1, "Cash", b, "cash"⟩ := by
  exact update_source_balance_unvalidated exDB 1 7 ⟨1, 7, none⟩
    ⟨1, 1, "Cash", some 100, "cash"⟩ rfl (by decide) rfl

/-- C10: for a source id with no row for the resolved user — in a
state where every expense references an existing source of its own
user — both the balance update and the source delete report success
and leave the state exactly as it was. -/
theorem absent_source_ops_report_success
    (db : DB) (sid tid : Int) (u : UserRow) (b : Option Amount)
    (hu : db.users.find? (fun x => x.telegram_id == tid) = some u)
    (htid : tid ≠ 0)
    (habs : ∀ s ∈ db.sources, ¬(s.id = sid ∧ s.user_id = u.id))
    (href : ∀ e ∈ db.expenses, ∃ s ∈ db.sources,
      s.id = e.source_id ∧ s.user_id = e.user_id) :
    update_source sid (some tid) b db
      = (.okMsg "Source updated successfully", db)
    ∧ delete_source sid (some tid) db
      = (.okMsg "Source deleted successfully", db) := by
  have hg : get_or_create_user tid none db = (u.id, db) :=
    get_or_create_user_found hu
  have hnomatch : ∀ x ∈ db.sources,
      (x.id == sid && x.user_id == u.id) = false := by
    intro x hx
    have := habs x hx
    by_cases h1 : x.id = sid
    · by_cases h2 : x.user_id = u.id
      · exact absurd ⟨h1, h2⟩ this
      · simp [h1, h2]
    · simp [h1]
  constructor
  · unfold update_source
    rw [if_neg (by simp [falsyI, htid])]
    simp only [Option.getD_some, hg]
    have hmap : db.sources.map (fun x =>
        if x.id == sid && x.user_id == u.id then
          { x with balance := b }
        else x) = db.sources := by
      rw [List.map_congr_left (g := id) ?_, List.map_id]
      intro a ha
      simp [hnomatch a ha]
    rw [hmap]
  · unfold delete_source
    simp only [hg]
    have hcnt : db.expenses.filter (fun e =>
        e.source_id == sid && e.user_id == u.id) = [] := by
      rw [List.filter_eq_nil_iff]
      intro e he hpe
      obtain ⟨h1, h2⟩ : e.source_id = sid ∧ e.user_id = u.id := by
        simpa using hpe
      obtain ⟨s, hsmem, hs1, hs2⟩ := href e he
      exact habs s hsmem ⟨by rw [hs1, h1], by rw [hs2, h2]⟩
    rw [hcnt]
    simp only [List.length_nil]
    rw [if_neg (lt_irrefl 0)]
    have hflt : db.sources.filter (fun x =>
        !(x.id == sid && x.user_id == u.id)) = db.sources := by
      rw [List.filter_eq_self]
      intro a ha
      simp [hnomatch a ha]
    rw [hflt]

/-- C10 witness: source id 5 does not exist in the concrete state;
both operations report success and change nothing. -/
theorem absent_source_ops_report_success_witness :
    update_source 5 (some 7) (some 3) exDB
      = (.okMsg "Source updated successfully", exDB)
    ∧ delete_source 5 (some 7) exDB
      = (.okMsg "Source deleted successfully", exDB) := by
  exact absent_source_ops_report_success exDB 5 7 ⟨1, 7, none⟩ (some 3)
    rfl (by decide) (by decide) (by simp [exDB])

end FinanceTracker
